import Mathlib

/-!
Shallow embedding of the Service Workbench API client (`src/swb.js`) and
verification of its specified behaviour.

Modelling conventions:
* Each client method becomes a pure Lean function.  Network traffic is made
  explicit: a method returns the list of HTTP requests it issues together
  with the eventual settlement of the promise it returns.  Stub responses of
  the remote service are passed in as arguments (the spec verifies the client
  against a stub transport).
* JSON values that the client never inspects are modelled by the opaque
  primitive type `JsVal`; collections the client does inspect (the user
  collection) are decoded into typed records carrying exactly the fields the
  client reads or copies.
* A promise settlement is `resolved`/`rejected`, or `pending` when the source
  wires no path to either (a thrown error inside an inner `.then` handler
  rejects only that inner chain, never the promise the method returned).
* JavaScript's in-place `Array.prototype.sort()` is modelled by a stable
  insertion sort on the default comparator (string comparison by code unit,
  which for the code points appearing here coincides with comparison of
  `Char.toNat`); the mutation it performs on the fetched record is made
  explicit in the record the function returns.
-/

/-- JSON-like primitive value; values the client treats as opaque
(server responses, configuration field values) are drawn from this type. -/
inductive JsVal where
  | null
  | bool (b : Bool)
  | num (n : Int)
  | str (s : String)
deriving DecidableEq, Repr

/-- User record as fetched from `GET /api/users`, restricted to the fields
the client reads or copies (`src/swb.js` lines 296-307 and 140-148). -/
structure User where
  uid : String
  applyReason : String
  email : String
  firstName : String
  isAdmin : Bool
  isExternalUser : Bool
  lastName : String
  identityProviderName : String
  projectId : List String
  rev : Int
  status : String
  userRole : String
deriving DecidableEq, Repr

/-- Payload built by `addFederatedUser` (`src/swb.js` lines 141-148). -/
structure NewUserPayload where
  email : String
  identityProviderName : String
  projectId : List String
  userRole : String
  authenticationProviderId : String
  username : String
deriving DecidableEq, Repr

/-- Ten-field update payload built by `updateUserDetails` (lines 232-243)
and `addRemoveProjectUser` (lines 296-307). -/
structure UserUpdate where
  applyReason : String
  email : String
  firstName : String
  isAdmin : Bool
  isExternalUser : Bool
  lastName : String
  projectId : List String
  rev : Int
  status : String
  userRole : String
deriving DecidableEq, Repr

/-- Project record as consumed by `updateProject` (lines 386-394): the five
editable fields plus two of the server-managed fields it strips away. -/
structure Project where
  description : String
  id : String
  indexId : String
  projectAdmins : List String
  rev : Int
  createdBy : JsVal
  updatedBy : JsVal
deriving DecidableEq, Repr

/-- Payload built by `updateProject` (lines 388-394). -/
structure ProjectUpdate where
  description : String
  id : String
  indexId : String
  projectAdmins : List String
  rev : Int
deriving DecidableEq, Repr

/-- Payload built by `createProject` (lines 447-452). -/
structure NewProjectPayload where
  id : String
  description : String
  indexId : String
  projectAdmins : List String
deriving DecidableEq, Repr

/-- Payload built by `createStudy` (lines 579-587). -/
structure NewStudyPayload where
  id : String
  studyType : String
  name : String
  description : String
  projectId : List String
  category : String
  uploadLocationEnabled : Bool
deriving DecidableEq, Repr

/-- One entry of `usersToAdd`/`usersToRemove` (lines 657-665). -/
structure PermEntry where
  uid : String
  permissionLevel : String
deriving DecidableEq, Repr

/-- Payload built by `addRemoveStudyPermission` (lines 651-665). -/
structure PermUpdatePayload where
  usersToAdd : List PermEntry
  usersToRemove : List PermEntry
deriving DecidableEq, Repr

/-- Identity-provider object as consumed by `addFederatedUser` (line 143
reads only its `id`). -/
structure IdProvider where
  id : String
deriving DecidableEq, Repr

/-- Index object as consumed by `createProject` (line 450 reads only `id`). -/
structure Index where
  id : String
deriving DecidableEq, Repr

/-- Response to the `PUT /api/studies/{id}/permissions` request: whether the
body has a `code` property, its `message`, and the remaining value
(lines 683-688). -/
structure PermResponse where
  hasCode : Bool
  message : String
  value : JsVal
deriving DecidableEq, Repr

/-- Mutable client state: constructor parameters plus the session fields
(`src/swb.js` lines 7-30). -/
structure Session where
  api : String
  username : String
  password : String
  token : Option String
  dryrun : Bool
deriving DecidableEq, Repr

/-- Typed request bodies (the objects handed to `JSON.stringify`). -/
inductive ReqBody where
  | loginCreds (username password authenticationProvider : String)
  | newUser (u : NewUserPayload)
  | userUpdate (u : UserUpdate)
  | projectUpdate (p : ProjectUpdate)
  | newProject (p : NewProjectPayload)
  | newStudy (s : NewStudyPayload)
  | permUpdate (p : PermUpdatePayload)
  | confUpdate (fields : List (String × JsVal))
deriving DecidableEq, Repr

/-- One HTTP request as issued through the transport. -/
structure Request where
  url : String
  method : String
  authToken : Option String
  body : Option ReqBody
deriving DecidableEq, Repr

/-- A request that writes remote state. -/
def Request.isWrite (r : Request) : Bool :=
  r.method == "POST" || r.method == "PUT"

/-- Settlement of the promise a client method returns. -/
inductive Outcome where
  | pending
  | resolvedVal (v : JsVal)
  | resolvedUser (u : User)
  | resolvedNewUser (p : NewUserPayload)
  | resolvedUserUpdate (p : UserUpdate)
  | resolvedProjectUpdate (p : ProjectUpdate)
  | resolvedNewProject (p : NewProjectPayload)
  | resolvedNewStudy (p : NewStudyPayload)
  | resolvedPermUpdate (p : PermUpdatePayload)
  | rejectedVal (v : JsVal)
  | rejectedMsg (m : String)
deriving DecidableEq, Repr

/-- Result of running one client method against stub responses. -/
structure OpResult where
  requests : List Request
  outcome : Outcome
deriving DecidableEq, Repr

/-! ### The default JavaScript sort comparator

`Array.prototype.sort()` without an argument compares elements as strings,
code unit by code unit; for the code points involved here this is
lexicographic comparison of `Char.toNat`.  The sort itself is required by
the language to produce a stable, sorted permutation, modelled below by
`List.insertionSort` over this comparison. -/

/-- Lexicographic order on char lists by code point. -/
def charsLe : List Char → List Char → Bool
  | [], _ => true
  | _ :: _, [] => false
  | a :: as, b :: bs =>
    if a.toNat < b.toNat then true
    else if b.toNat < a.toNat then false
    else charsLe as bs

/-- String order used by the default JavaScript sort comparator. -/
def jsLe (a b : String) : Prop := charsLe a.data b.data = true

instance : DecidableRel jsLe := fun _ _ => inferInstanceAs (Decidable (_ = true))

theorem charsLe_total (x y : List Char) : charsLe x y = true ∨ charsLe y x = true := by
  induction x generalizing y with
  | nil => left; simp [charsLe]
  | cons a as ih =>
    cases y with
    | nil => right; simp [charsLe]
    | cons b bs =>
      by_cases h1 : a.toNat < b.toNat
      · left; simp [charsLe, h1]
      · by_cases h2 : b.toNat < a.toNat
        · right; simp [charsLe, h2]
        · rcases ih bs with h | h
          · left; simp [charsLe, h1, h2, h]
          · right; simp [charsLe, h1, h2, h]

theorem charsLe_trans (x y z : List Char) (hxy : charsLe x y = true)
    (hyz : charsLe y z = true) : charsLe x z = true := by
  induction x generalizing y z with
  | nil => simp [charsLe]
  | cons a as ih =>
    cases y with
    | nil => simp [charsLe] at hxy
    | cons b bs =>
      cases z with
      | nil => simp [charsLe] at hyz
      | cons c cs =>
        simp only [charsLe] at hxy hyz ⊢
        split at hxy
        · rename_i hab
          split at hyz
          · rename_i hbc
            have hac : a.toNat < c.toNat := Nat.lt_trans hab hbc
            simp [hac]
          · split at hyz
            · simp at hyz
            · rename_i hbc hcb
              have hac : a.toNat < c.toNat := by omega
              simp [hac]
        · split at hxy
          · simp at hxy
          · rename_i hab hba
            split at hyz
            · rename_i hbc
              have hac : a.toNat < c.toNat := by omega
              simp [hac]
            · split at hyz
              · simp at hyz
              · rename_i hbc hcb
                have h1 : ¬ a.toNat < c.toNat := by omega
                have h2 : ¬ c.toNat < a.toNat := by omega
                simp only [h1, h2, if_false, if_neg, not_false_eq_true]
                exact ih bs cs hxy hyz

theorem charsLe_antisymm (x y : List Char) (hxy : charsLe x y = true)
    (hyx : charsLe y x = true) : x = y := by
  induction x generalizing y with
  | nil =>
    cases y with
    | nil => rfl
    | cons b bs => simp [charsLe] at hyx
  | cons a as ih =>
    cases y with
    | nil => simp [charsLe] at hxy
    | cons b bs =>
      simp only [charsLe] at hxy hyx
      by_cases hab : a.toNat < b.toNat
      · simp [hab, Nat.lt_asymm hab] at hyx
      · by_cases hba : b.toNat < a.toNat
        · simp [hab, hba] at hxy
        · have hchar : a = b := by
            have hval : a.toNat = b.toNat := by omega
            simp only [Char.toNat] at hval
            exact Char.ext (UInt32.ext hval)
          simp [hab, hba] at hxy hyx
          rw [hchar, ih bs hxy hyx]

instance : IsTotal String jsLe := ⟨fun a b => charsLe_total a.data b.data⟩

instance : IsTrans String jsLe :=
  ⟨fun a b c => charsLe_trans a.data b.data c.data⟩

instance : IsAntisymm String jsLe :=
  ⟨fun a b h1 h2 => String.ext (charsLe_antisymm a.data b.data h1 h2)⟩

/-- `xs.sort()` on an array of strings: stable sort by the default
comparator. -/
def jsSortStrings (l : List String) : List String :=
  List.insertionSort jsLe l

/-- `xs.sort().join()`: the comparison key used at `src/swb.js` line 316
(`join` with no argument separates with a comma). -/
def sortJoin (l : List String) : String :=
  String.intercalate "," (jsSortStrings l)

/-! ### Models of the JavaScript builtins the client uses -/

/-- ASCII case folding: model of `String.prototype.toLowerCase` restricted
to the ASCII range. -/
def asciiLowerChar (c : Char) : Char :=
  if 65 ≤ c.toNat ∧ c.toNat ≤ 90 then Char.ofNat (c.toNat + 32) else c

/-- `s.toLowerCase()` for ASCII strings. -/
def jsToLower (s : String) : String := ⟨s.data.map asciiLowerChar⟩

/-- Upper-case hexadecimal digit, as produced by `encodeURI`. -/
def hexDigitChar (n : Nat) : Char :=
  if n < 10 then Char.ofNat (48 + n) else Char.ofNat (55 + n)

/-- Characters `encodeURI` leaves unescaped: alphanumerics, the unreserved
marks, and the URI reserved set (the apostrophe, code point 39, is also
unescaped). -/
def encodeURIUnescaped (c : Char) : Bool :=
  c.isAlphanum ||
    [';', ',', '/', '?', ':', '@', '&', '=', '+', '$',
     '-', '_', '.', '!', '~', '*', '(', ')', '#'].contains c ||
    c.toNat == 39

/-- Model of the JavaScript `encodeURI` builtin, faithful for strings of
ASCII code points (the only strings the client applies it to). -/
def encodeURI (s : String) : String :=
  ⟨(s.data.map (fun c =>
      if encodeURIUnescaped c then [c]
      else ['%', hexDigitChar (c.toNat / 16), hexDigitChar (c.toNat % 16)])).flatten⟩

/-- Number of positions of `s` at which the non-empty pattern `pat` starts. -/
def occursAux (pat : List Char) : List Char → Nat
  | [] => 0
  | c :: rest => (if pat.isPrefixOf (c :: rest) then 1 else 0) + occursAux pat rest

/-- Number of occurrences of `pat` inside `s`. -/
def substrCount (pat s : String) : Nat := occursAux pat.data s.data

/-- `t` occurs inside `s`. -/
def containsSubstring (s t : String) : Prop := ∃ pre post, s = pre ++ t ++ post

/-- String interpolation of a JSON value (JavaScript ToString, as used by
the template literal at `src/swb.js` line 767). -/
def jsValToString : JsVal → String
  | .null => "null"
  | .bool b => cond b "true" "false"
  | .num n => toString n
  | .str s => s

/-! ### The client operations -/

/-- The `GET /api/users` request shared by the user operations
(lines 181-189, 215-223, 278-286). -/
def usersGetReq (st : Session) : Request :=
  { url := st.api ++ "/api/users", method := "GET", authToken := st.token, body := none }

/-- The `PUT /api/users/{uid}` request (lines 250-257, 326-335). -/
def userPutReq (st : Session) (uid : String) (u2 : UserUpdate) : Request :=
  { url := st.api ++ "/api/users/" ++ uid, method := "PUT",
    authToken := st.token, body := some (.userUpdate u2) }

/-- Result of `login`: the traffic, the settlement, and the session state
after the call (the token assignment at line 60 mutates the session). -/
structure LoginResult where
  requests : List Request
  outcome : Outcome
  session : Session
deriving DecidableEq, Repr

/-- `login()` (lines 38-75) run against a stub transport: `authStatus` and
`authIdToken` describe the response to the credential exchange, `profile`
the body answered to the profile fetch.  On a status other than 200 the
error thrown at line 56 rejects only the inner fetch chain; neither
`resolve` nor `reject` of the promise returned by `login` is ever invoked
on that path, so that promise stays pending. -/
def login (st : Session) (authStatus : Nat) (authIdToken : String)
    (profile : JsVal) : LoginResult :=
  let req1 : Request :=
    { url := st.api ++ "/api/authentication/id-tokens", method := "POST",
      authToken := none,
      body := some (.loginCreds st.username st.password "internal") }
  if authStatus ≠ 200 then
    { requests := [req1], outcome := .pending, session := st }
  else
    let st2 := { st with token := some authIdToken }
    let req2 : Request :=
      { url := st.api ++ "/api/user", method := "GET",
        authToken := some authIdToken, body := none }
    { requests := [req1, req2], outcome := .resolvedVal profile, session := st2 }

/-- Payload built by `addFederatedUser` (lines 141-148): lower-cased email,
empty initial project list, the provider id and url, the given role. -/
def federatedUserPayload (idp : IdProvider) (adpUrl email role : String) : NewUserPayload :=
  { email := jsToLower email, identityProviderName := idp.id, projectId := [],
    userRole := role, authenticationProviderId := adpUrl,
    username := jsToLower email }

/-- `addFederatedUser(idp, adpUrl, email, role)` (lines 140-169). -/
def addFederatedUser (st : Session) (idp : IdProvider) (adpUrl email role : String)
    (resp : JsVal) : OpResult :=
  let body := federatedUserPayload idp adpUrl email role
  if st.dryrun then
    { requests := [], outcome := .resolvedNewUser body }
  else
    { requests := [{ url := st.api ++ "/api/users", method := "POST",
                     authToken := st.token, body := some (.newUser body) }],
      outcome := .resolvedVal resp }

/-- `getUserByEmailAndIdp(email, idpName)` (lines 179-198).  `usersResp` is
the decoded body of the `GET /api/users` response, `none` standing for a
falsy (null) body.  In that case line 192 rejects with the falsy value (the
`find` call that still runs afterwards throws inside the already-settled
chain and changes nothing). -/
def getUserByEmailAndIdp (st : Session) (email idpName : String)
    (usersResp : Option (List User)) : OpResult :=
  match usersResp with
  | none => { requests := [usersGetReq st], outcome := .rejectedVal .null }
  | some users =>
    match users.find? (fun u => u.email == email && u.identityProviderName == idpName) with
    | some u => { requests := [usersGetReq st], outcome := .resolvedUser u }
    | none =>
      { requests := [usersGetReq st],
        outcome := .rejectedMsg (email ++ " not found for " ++ idpName) }

/-- Payload built by `updateUserDetails` (lines 232-243): the non-editable
fields are copied from the fetched record, name, status and role are
overwritten. -/
def userDetailsPayload (u : User) (firstname surname status userRole : String) : UserUpdate :=
  { applyReason := u.applyReason, email := u.email, firstName := firstname,
    isAdmin := u.isAdmin, isExternalUser := u.isExternalUser, lastName := surname,
    projectId := u.projectId, rev := u.rev, status := status, userRole := userRole }

/-- `updateUserDetails(uid, firstname, surname, status, userRole)`
(lines 211-263). -/
def updateUserDetails (st : Session) (uid firstname surname status userRole : String)
    (users : List User) (putResp : JsVal) : OpResult :=
  match users.find? (fun u => u.uid == uid) with
  | none =>
    { requests := [usersGetReq st],
      outcome := .rejectedMsg "uid not found while adding project" }
  | some u =>
    let u2 := userDetailsPayload u firstname surname status userRole
    if st.dryrun then
      { requests := [usersGetReq st], outcome := .resolvedUserUpdate u2 }
    else
      { requests := [usersGetReq st, userPutReq st uid u2],
        outcome := .resolvedVal putResp }

/-- Lines 296-307 of `addRemoveProjectUser`: the new object copying the ten
updatable properties of the fetched record. -/
def copyUserFields (u : User) : UserUpdate :=
  { applyReason := u.applyReason, email := u.email, firstName := u.firstName,
    isAdmin := u.isAdmin, isExternalUser := u.isExternalUser, lastName := u.lastName,
    projectId := u.projectId, rev := u.rev, status := u.status, userRole := u.userRole }

/-- Lines 312-314: remove the target project from the copied list, then
push it back when the action is "add". -/
def rebuiltProjectIds (l : List String) (projectId action : String) : List String :=
  let filtered := l.filter (fun id => id != projectId)
  if action == "add" then filtered ++ [projectId] else filtered

/-- `addRemoveProjectUser(projectId, uid, action)` (lines 274-340).  `users`
is the decoded `GET /api/users` body, `putResp` the decoded `PUT` response
when one is made.  Line 316 sorts both arrays in place before comparing
their joins, so on the short-circuit path the resolved record carries the
fetched `projectId` array in sorted order, and on the other paths the
payload carries the sorted rebuilt list. -/
def addRemoveProjectUser (st : Session) (projectId uid action : String)
    (users : List User) (putResp : JsVal) : OpResult :=
  match users.find? (fun u => u.uid == uid) with
  | none =>
    { requests := [usersGetReq st],
      outcome := .rejectedMsg
        ("uid " ++ uid ++ " not found while " ++ action ++ " to/from " ++ projectId) }
  | some u =>
    let newList := rebuiltProjectIds u.projectId projectId action
    if sortJoin u.projectId = sortJoin newList then
      { requests := [usersGetReq st],
        outcome := .resolvedUser { u with projectId := jsSortStrings u.projectId } }
    else
      let u2 := { copyUserFields u with projectId := jsSortStrings newList }
      if st.dryrun then
        { requests := [usersGetReq st], outcome := .resolvedUserUpdate u2 }
      else
        { requests := [usersGetReq st, userPutReq st uid u2],
          outcome := .resolvedVal putResp }

/-- `getProject(projectId)` (lines 363-377). -/
def getProject (st : Session) (projectId : String) (resp : JsVal) : OpResult :=
  { requests := [{ url := st.api ++ "/api/projects/" ++ projectId, method := "GET",
                   authToken := st.token, body := none }],
    outcome := .resolvedVal resp }

/-- Payload built by `updateProject` (lines 388-394): only the fields that
can be updated or are needed. -/
def projectUpdatePayload (proj : Project) : ProjectUpdate :=
  { description := proj.description, id := proj.id, indexId := proj.indexId,
    projectAdmins := proj.projectAdmins, rev := proj.rev }

/-- `updateProject(proj)` (lines 386-414). -/
def updateProject (st : Session) (proj : Project) (resp : JsVal) : OpResult :=
  let newProj := projectUpdatePayload proj
  if st.dryrun then
    { requests := [], outcome := .resolvedProjectUpdate newProj }
  else
    { requests := [{ url := st.api ++ "/api/projects/" ++ proj.id, method := "PUT",
                     authToken := st.token, body := some (.projectUpdate newProj) }],
      outcome := .resolvedVal resp }

/-- `getProjects()` (lines 421-434). -/
def getProjects (st : Session) (resp : JsVal) : OpResult :=
  { requests := [{ url := st.api ++ "/api/projects", method := "GET",
                   authToken := st.token, body := none }],
    outcome := .resolvedVal resp }

/-- Payload built by `createProject` (lines 447-452): the admins list is
reduced to the bare uids. -/
def createProjectPayload (projectId description : String) (index : Index)
    (admins : List User) : NewProjectPayload :=
  { id := projectId, description := description, indexId := index.id,
    projectAdmins := admins.map (fun u => u.uid) }

/-- `createProject(projectId, description, index, admins)` (lines 446-473). -/
def createProject (st : Session) (projectId description : String) (index : Index)
    (admins : List User) (resp : JsVal) : OpResult :=
  let body := createProjectPayload projectId description index admins
  if st.dryrun then
    { requests := [], outcome := .resolvedNewProject body }
  else
    { requests := [{ url := st.api ++ "/api/projects", method := "POST",
                     authToken := st.token, body := some (.newProject body) }],
      outcome := .resolvedVal resp }

/-- `getStudies(category)` (lines 516-533): an invalid category throws the
string "Invalid category type." synchronously, before any request; a valid
one is percent-encoded into the query string of the single GET. -/
def getStudies (st : Session) (category : String) (resp : JsVal) :
    Except String OpResult :=
  if !(["Organization", "My Studies"].contains category) then
    .error "Invalid category type."
  else
    .ok { requests := [{ url := st.api ++ "/api/studies/?category=" ++ encodeURI category,
                         method := "GET", authToken := st.token, body := none }],
          outcome := .resolvedVal resp }

/-- `getStudy(studyId)` (lines 542-555). -/
def getStudy (st : Session) (studyId : String) (resp : JsVal) : OpResult :=
  { requests := [{ url := st.api ++ "/api/studies/" ++ studyId, method := "GET",
                   authToken := st.token, body := none }],
    outcome := .resolvedVal resp }

/-- Payload built by `createStudy` (lines 579-587): the project id is
wrapped in a one-element list. -/
def createStudyPayload (id name description projectId category studyType : String)
    (uploadLocationEnabled : Bool) : NewStudyPayload :=
  { id := id, studyType := studyType, name := name, description := description,
    projectId := [projectId], category := category,
    uploadLocationEnabled := uploadLocationEnabled }

/-- `createStudy(id, name, description, projectId, category, studyType,
uploadLocationEnabled)` (lines 570-609). -/
def createStudy (st : Session) (id name description projectId category studyType : String)
    (uploadLocationEnabled : Bool) (resp : JsVal) : Except String OpResult :=
  if !(["Organization", "My Studies"].contains category) then
    .error "Invalid category type."
  else if !(["unstructured", "structured"].contains studyType) then
    .error "Invalid study type"
  else
    let body := createStudyPayload id name description projectId category
      studyType uploadLocationEnabled
    if st.dryrun then
      .ok { requests := [], outcome := .resolvedNewStudy body }
    else
      .ok { requests := [{ url := st.api ++ "/api/studies", method := "POST",
                           authToken := st.token, body := some (.newStudy body) }],
            outcome := .resolvedVal resp }

/-- `getStudyPermissions(studyId)` (lines 618-631). -/
def getStudyPermissions (st : Session) (studyId : String) (resp : JsVal) : OpResult :=
  { requests := [{ url := st.api ++ "/api/studies/" ++ studyId ++ "/permissions",
                   method := "GET", authToken := st.token, body := none }],
    outcome := .resolvedVal resp }

/-- Payload built by `addRemoveStudyPermission` (lines 651-665): the one
user is pushed onto `usersToAdd` when the action is "add", otherwise onto
`usersToRemove`. -/
def studyPermissionPayload (userId action permissionLevel : String) : PermUpdatePayload :=
  let entry : PermEntry := { uid := userId, permissionLevel := permissionLevel }
  if action == "add" then { usersToAdd := [entry], usersToRemove := [] }
  else { usersToAdd := [], usersToRemove := [entry] }

/-- `addRemoveStudyPermission(studyId, userId, action, permissionLevel)`
(lines 644-691): invalid enums throw synchronously; a response carrying a
`code` property rejects with its `message`. -/
def addRemoveStudyPermission (st : Session) (studyId userId action permissionLevel : String)
    (resp : PermResponse) : Except String OpResult :=
  if !(["readonly", "admin"].contains permissionLevel) then
    .error "Invalid permission level"
  else if !(["add", "remove"].contains action) then
    .error "Invalid action"
  else
    let body := studyPermissionPayload userId action permissionLevel
    if st.dryrun then
      .ok { requests := [], outcome := .resolvedPermUpdate body }
    else
      .ok { requests := [{ url := st.api ++ "/api/studies/" ++ studyId ++ "/permissions",
                           method := "PUT", authToken := st.token,
                           body := some (.permUpdate body) }],
            outcome := if resp.hasCode then .rejectedMsg resp.message
                       else .resolvedVal resp.value }

/-- `getWorkspaceTypes()` (lines 713-726). -/
def getWorkspaceTypes (st : Session) (resp : JsVal) : OpResult :=
  { requests := [{ url := st.api ++ "/api/workspace-types?status=*", method := "GET",
                   authToken := st.token, body := none }],
    outcome := .resolvedVal resp }

/-- `getWorkspaceConfigurations(workspaceType)` (lines 735-748). -/
def getWorkspaceConfigurations (st : Session) (workspaceType : String)
    (resp : JsVal) : OpResult :=
  { requests := [{ url := st.api ++ "/api/workspace-types/" ++ workspaceType
                     ++ "/configurations/?include=all",
                   method := "GET", authToken := st.token, body := none }],
    outcome := .resolvedVal resp }

/-- `delete obj[k]` on a JavaScript object modelled as its field list. -/
def deleteKey (obj : List (String × JsVal)) (k : String) : List (String × JsVal) :=
  obj.filter (fun kv => kv.1 != k)

/-- The five server-managed fields deleted at lines 760-764, in source
order. -/
def managedFields : List String :=
  ["createdBy", "updatedBy", "createdAt", "updatedAt", "allowedToUse"]

/-- Result of `updateWorkspaceConfiguration`: the caller's configuration
object after the call (the `delete` statements mutate it in place), the
traffic, and the settlement. -/
structure ConfResult where
  callerObj : List (String × JsVal)
  requests : List Request
  outcome : Outcome
deriving DecidableEq, Repr

/-- The configuration object after the five `delete` statements of
lines 760-764 have run against it. -/
def submittedConfig (workspaceConfObj : List (String × JsVal)) : List (String × JsVal) :=
  managedFields.foldl deleteKey workspaceConfObj

/-- `updateWorkspaceConfiguration(workspaceType, workspaceConfObj)`
(lines 759-779).  The five `delete` statements run against the argument
object itself; the PUT then submits that object.  No dry-run check exists
in this method: the PUT is issued unconditionally. -/
def updateWorkspaceConfiguration (st : Session) (workspaceType : String)
    (workspaceConfObj : List (String × JsVal)) (resp : JsVal) : ConfResult :=
  let obj := submittedConfig workspaceConfObj
  let idVal := match obj.lookup "id" with
    | some v => jsValToString v
    | none => "undefined"
  { callerObj := obj,
    requests := [{ url := st.api ++ "/api/workspace-types/" ++ workspaceType
                     ++ "/configurations/" ++ idVal,
                   method := "PUT", authToken := st.token,
                   body := some (.confUpdate obj) }],
    outcome := .resolvedVal resp }

/-! ### Stub user store, for properties about sequences of calls -/

/-- Modelled from the spec: the remote service itself is not part of this
repository, so sequences of calls are run against the stub transport the
spec prescribes for testing.  A `PUT /api/users/{uid}` replaces the ten
submitted fields of the stored record with that uid. -/
def applyUserUpdate (u : User) (p : UserUpdate) : User :=
  { u with applyReason := p.applyReason, email := p.email, firstName := p.firstName,
           isAdmin := p.isAdmin, isExternalUser := p.isExternalUser,
           lastName := p.lastName, projectId := p.projectId, rev := p.rev,
           status := p.status, userRole := p.userRole }

/-- Stub user store after a `PUT /api/users/{uid}`. -/
def serverAfterUserPut (users : List User) (uid : String) (p : UserUpdate) : List User :=
  users.map (fun u => if u.uid == uid then applyUserUpdate u p else u)

/-- The body of the first user PUT among the issued requests, if any. -/
def userPutOf : List Request → Option UserUpdate
  | [] => none
  | r :: rs =>
    match r.body with
    | some (.userUpdate p) => if r.method == "PUT" then some p else userPutOf rs
    | _ => userPutOf rs

/-- The requests issued by an operation that can also throw synchronously:
none are issued on the throwing path. -/
def issuedRequests : Except String OpResult → List Request
  | .error _ => []
  | .ok r => r.requests

/-- One `addRemoveProjectUser` call against the stub user store: the store
after the call (with the PUT applied when one was issued) and the call's
result. -/
def addRemoveProjectUserRun (st : Session) (projectId uid action : String)
    (server : List User) (putResp : JsVal) : List User × OpResult :=
  let r := addRemoveProjectUser st projectId uid action server putResp
  match userPutOf r.requests with
  | some p => (serverAfterUserPut server uid p, r)
  | none => (server, r)

/-! ### Helper lemmas -/

theorem jsSortStrings_perm (l : List String) : (jsSortStrings l).Perm l :=
  List.perm_insertionSort jsLe l

theorem jsSortStrings_eq_of_perm {l1 l2 : List String} (h : l1.Perm l2) :
    jsSortStrings l1 = jsSortStrings l2 :=
  List.eq_of_perm_of_sorted
    ((jsSortStrings_perm l1).trans (h.trans (jsSortStrings_perm l2).symm))
    (List.sorted_insertionSort jsLe l1) (List.sorted_insertionSort jsLe l2)

theorem count_filter_ne (l : List String) (p : String) :
    (l.filter (fun id => id != p)).count p = 0 := by
  rw [List.count_eq_zero]
  intro h
  have := (List.mem_filter.mp h).2
  simp at this

theorem rebuilt_perm_of_count_one (l : List String) (pid : String)
    (h : l.count pid = 1) : (rebuiltProjectIds l pid "add").Perm l := by
  rw [List.perm_iff_count]
  intro a
  by_cases ha : a = pid
  · subst ha
    simp [rebuiltProjectIds, List.count_append, count_filter_ne, h]
  · have hane : (a != pid) = true := by simp [ha]
    have hcf : (l.filter (fun id => id != pid)).count a = l.count a :=
      List.count_filter hane
    simp [rebuiltProjectIds, List.count_append, hcf, List.count_singleton,
      Ne.symm ha]

theorem lookup_deleteKey (obj : List (String × JsVal)) (k dk : String) :
    (deleteKey obj dk).lookup k = if k = dk then none else obj.lookup k := by
  induction obj with
  | nil => simp [deleteKey]
  | cons kv rest ih =>
    obtain ⟨k1, v⟩ := kv
    by_cases h1 : k1 = dk
    · have hfilter : deleteKey ((k1, v) :: rest) dk = deleteKey rest dk := by
        simp [deleteKey, List.filter_cons, h1]
      rw [hfilter, ih]
      by_cases h2 : k = dk
      · simp [h2]
      · have hk1 : (k == k1) = false := by
          rw [h1]; exact beq_eq_false_iff_ne.mpr h2
        simp [h2, List.lookup_cons, hk1]
    · have hfilter : deleteKey ((k1, v) :: rest) dk = (k1, v) :: deleteKey rest dk := by
        simp [deleteKey, List.filter_cons, h1]
      rw [hfilter]
      by_cases h2 : k = k1
      · have hbeq : (k == k1) = true := by simp [h2]
        have hkdk : ¬ k = dk := by rw [h2]; exact h1
        simp [List.lookup_cons, hbeq, hkdk]
      · have hkk1 : (k == k1) = false := beq_eq_false_iff_ne.mpr h2
        simp [List.lookup_cons, hkk1, ih]

theorem lookup_foldl_deleteKey (ks : List String) (obj : List (String × JsVal))
    (k : String) :
    (ks.foldl deleteKey obj).lookup k = if k ∈ ks then none else obj.lookup k := by
  induction ks generalizing obj with
  | nil => simp
  | cons a as ih =>
    simp only [List.foldl_cons, ih, lookup_deleteKey, List.mem_cons]
    by_cases h1 : k ∈ as <;> by_cases h2 : k = a <;> simp [h1, h2]

theorem containsSubstring_left (t rest : String) : containsSubstring (t ++ rest) t :=
  ⟨"", rest, by apply String.ext; simp⟩

theorem containsSubstring_right (pre t : String) : containsSubstring (pre ++ t) t :=
  ⟨pre, "", by apply String.ext; simp⟩

/-- Splitting the studies URL into its base and its query string. -/
theorem studiesUrlSplit (api e : String) :
    api ++ "/api/studies/?category=" ++ e = api ++ "/api/studies/?" ++ ("category=" ++ e) := by
  rw [String.append_assoc, String.append_assoc]
  congr 1

/-! ### Concrete fixtures for the closed evaluations -/

/-- A concrete authenticated session. -/
def ses0 : Session :=
  { api := "https://swb.example", username := "admin", password := "pw",
    token := some "tok", dryrun := false }

/-- The same session with dry-run enabled. -/
def sesDry : Session := { ses0 with dryrun := true }

/-- The same session holding no bearer token. -/
def sesNoTok : Session := { ses0 with token := none }

/-- A concrete fetched user whose projectId list is not in sorted order. -/
def user0 : User :=
  { uid := "u-1", applyReason := "", email := "a@b.com", firstName := "Ann",
    isAdmin := false, isExternalUser := true, lastName := "Ber",
    identityProviderName := "idpX", projectId := ["b", "a"], rev := 0,
    status := "active", userRole := "researcher" }

/-- A fetched user who is a member of project "p" — listed twice. -/
def userDup : User := { user0 with uid := "u-2", projectId := ["p", "p"] }

/-- A fetched user who is a member of project "p" exactly once. -/
def userP : User := { user0 with uid := "u-3", projectId := ["p"] }

/-- A concrete identity provider. -/
def idp0 : IdProvider := { id := "idpX" }

/-- A concrete workspace configuration carrying both server-managed and
ordinary fields. -/
def cfg0 : List (String × JsVal) :=
  [("id", .str "c-1"), ("createdBy", .str "u-9"), ("updatedAt", .str "2024"),
   ("desc", .str "a configuration")]

/-! ### Claim C2 -/

/-- C2: at the failing input — the credential exchange answered with the
non-success HTTP status 401 — `login` issues no further request, leaves the
token unset, and its promise settles neither way: it stays `pending`
instead of rejecting with an authentication error (the error thrown at
line 56 has no path to the returned promise's `reject`).  On a 200 response
the specified success behaviour does hold: the token is stored, the second
request carries exactly that token, and the promise resolves with the
profile. -/
theorem login_non_success_leaves_promise_pending :
    ((login sesNoTok 401 "T" (JsVal.str "me")).outcome = Outcome.pending ∧
     (login sesNoTok 401 "T" (JsVal.str "me")).requests.length = 1 ∧
     (login sesNoTok 401 "T" (JsVal.str "me")).session.token = none) ∧
    ((login sesNoTok 200 "T" (JsVal.str "me")).session.token = some "T" ∧
     (login sesNoTok 200 "T" (JsVal.str "me")).outcome =
       Outcome.resolvedVal (JsVal.str "me") ∧
     (login sesNoTok 200 "T" (JsVal.str "me")).requests.map Request.authToken =
       [none, some "T"]) := by
  decide

/-! ### Claim C5 -/

/-- C5: for each of the two valid categories, `getStudies` succeeds with a
single GET whose query string carries the percent-encoded category exactly
once; for every other string it fails synchronously with the validation
error, issuing no request. -/
theorem getStudies_category_encoding (st : Session) (resp : JsVal) (c : String) :
    (c ∈ ["Organization", "My Studies"] →
      getStudies st c resp =
        Except.ok { requests := [{ url := st.api ++ "/api/studies/?"
                                     ++ ("category=" ++ encodeURI c),
                                   method := "GET", authToken := st.token,
                                   body := none }],
                    outcome := Outcome.resolvedVal resp } ∧
      substrCount (encodeURI c) ("category=" ++ encodeURI c) = 1) ∧
    (c ∉ ["Organization", "My Studies"] →
      getStudies st c resp = Except.error "Invalid category type.") := by
  constructor
  · intro hc
    have hc2 : c = "Organization" ∨ c = "My Studies" := by simpa using hc
    have hurl := studiesUrlSplit st.api (encodeURI c)
    rcases hc2 with rfl | rfl
    · exact ⟨by rw [← hurl]; rfl, by decide⟩
    · exact ⟨by rw [← hurl]; rfl, by decide⟩
  · intro hc
    have hc3 : ¬ c = "Organization" ∧ ¬ c = "My Studies" := by
      simpa [not_or] using hc
    simp [getStudies, hc3.1, hc3.2]

/-- Witness for C5 at the concrete inputs "My Studies" and "Bogus". -/
theorem getStudies_category_encoding_witness :
    substrCount (encodeURI "My Studies") ("category=" ++ encodeURI "My Studies") = 1 ∧
    getStudies ses0 "Bogus" JsVal.null = Except.error "Invalid category type." :=
  ⟨((getStudies_category_encoding ses0 JsVal.null "My Studies").1 (by decide)).2,
   (getStudies_category_encoding ses0 JsVal.null "Bogus").2 (by decide)⟩

/-! ### Claim C6 -/

/-- C6: a falsy user collection makes the call fail (rejecting with the
falsy value); a collection with no exact case-sensitive (email, idp) match
makes it fail with a not-found message containing both the email and the
idp name; when a matching record exists the call resolves with a matching
record of the collection. -/
theorem getUserByEmailAndIdp_spec (st : Session) (email idpName : String)
    (usersResp : Option (List User)) :
    (usersResp = none →
      (getUserByEmailAndIdp st email idpName usersResp).outcome =
        Outcome.rejectedVal JsVal.null) ∧
    (∀ users, usersResp = some users →
      ((∀ u ∈ users, ¬(u.email = email ∧ u.identityProviderName = idpName)) →
        ∃ m, (getUserByEmailAndIdp st email idpName usersResp).outcome =
            Outcome.rejectedMsg m ∧
          containsSubstring m email ∧ containsSubstring m idpName) ∧
      (∀ u ∈ users, u.email = email → u.identityProviderName = idpName →
        ∃ u2, (getUserByEmailAndIdp st email idpName usersResp).outcome =
            Outcome.resolvedUser u2 ∧
          u2 ∈ users ∧ u2.email = email ∧ u2.identityProviderName = idpName)) := by
  constructor
  · rintro rfl; rfl
  · rintro users rfl
    constructor
    · intro hno
      have hfind : users.find?
          (fun u => u.email == email && u.identityProviderName == idpName) = none := by
        rw [List.find?_eq_none]
        intro x hx hpred
        have hx2 : x.email = email ∧ x.identityProviderName = idpName := by
          simpa using hpred
        exact hno x hx hx2
      refine ⟨email ++ " not found for " ++ idpName, ?_, ?_, ?_⟩
      · simp [getUserByEmailAndIdp, hfind]
      · rw [String.append_assoc]
        exact containsSubstring_left email (" not found for " ++ idpName)
      · exact containsSubstring_right (email ++ " not found for ") idpName
    · intro u hu hue hui
      cases hfind : users.find?
          (fun x => x.email == email && x.identityProviderName == idpName) with
      | none =>
        exfalso
        have hall := List.find?_eq_none.mp hfind u hu
        simp [hue, hui] at hall
      | some u2 =>
        have hpred := List.find?_some hfind
        rw [Bool.and_eq_true, beq_iff_eq, beq_iff_eq] at hpred
        exact ⟨u2, by simp [getUserByEmailAndIdp, hfind],
          List.mem_of_find?_eq_some hfind, hpred.1, hpred.2⟩

/-- Witness for C6: a matching record is found, a non-matching collection
rejects with a message carrying both identifiers, a null collection
rejects. -/
theorem getUserByEmailAndIdp_spec_witness :
    (∃ u2, (getUserByEmailAndIdp ses0 "a@b.com" "idpX" (some [user0])).outcome =
        Outcome.resolvedUser u2 ∧ u2 ∈ [user0] ∧ u2.email = "a@b.com" ∧
        u2.identityProviderName = "idpX") ∧
    (∃ m, (getUserByEmailAndIdp ses0 "zz@b.com" "idpX" (some [user0])).outcome =
        Outcome.rejectedMsg m ∧
      containsSubstring m "zz@b.com" ∧ containsSubstring m "idpX") ∧
    (getUserByEmailAndIdp ses0 "a@b.com" "idpX" none).outcome =
      Outcome.rejectedVal JsVal.null := by
  refine ⟨?_, ?_, ?_⟩
  · exact ((getUserByEmailAndIdp_spec ses0 "a@b.com" "idpX" (some [user0])).2
      [user0] rfl).2 user0 (by decide) (by decide) (by decide)
  · exact ((getUserByEmailAndIdp_spec ses0 "zz@b.com" "idpX" (some [user0])).2
      [user0] rfl).1 (by decide)
  · exact (getUserByEmailAndIdp_spec ses0 "a@b.com" "idpX" none).1 rfl

/-! ### Claim C8 -/

/-- C8: for every prior project-id list and every action value, the list
`addRemoveProjectUser` constructs for the update payload — the rebuilt list,
and the sorted form of it that the payload actually carries — contains the
target projectId at most once: the filter removes every occurrence and the
push re-adds a single one only when the action is "add". -/
theorem addRemoveProjectUser_payload_no_duplicate (l : List String) (pid action : String) :
    (rebuiltProjectIds l pid action).count pid ≤ 1 ∧
    (jsSortStrings (rebuiltProjectIds l pid action)).count pid ≤ 1 := by
  have hbase : (rebuiltProjectIds l pid action).count pid ≤ 1 := by
    unfold rebuiltProjectIds
    by_cases ha : (action == "add") = true
    · simp [ha, List.count_append, count_filter_ne, List.count_singleton]
    · simp [ha, count_filter_ne]
  refine ⟨hbase, ?_⟩
  rw [(jsSortStrings_perm (rebuiltProjectIds l pid action)).count_eq]
  exact hbase

/-! ### Claim C9 -/

/-- C9: the body submitted in the PUT of `updateWorkspaceConfiguration`
contains none of the five server-managed fields, even when they are present
on the input object, and every other field of the input is carried over
unchanged. -/
theorem updateWorkspaceConfiguration_strips_fields (st : Session) (t : String)
    (cfg : List (String × JsVal)) (resp : JsVal) (k : String) :
    (updateWorkspaceConfiguration st t cfg resp).requests.map Request.body =
      [some (ReqBody.confUpdate (submittedConfig cfg))] ∧
    (k ∈ managedFields → (submittedConfig cfg).lookup k = none) ∧
    (k ∉ managedFields → (submittedConfig cfg).lookup k = cfg.lookup k) := by
  refine ⟨rfl, ?_, ?_⟩
  · intro hk
    rw [submittedConfig, lookup_foldl_deleteKey]
    simp [hk]
  · intro hk
    rw [submittedConfig, lookup_foldl_deleteKey]
    simp [hk]

/-- Witness for C9 at a concrete configuration: the server-managed field
"createdBy" is gone from the submitted body while the ordinary field
"desc" survives with its value. -/
theorem updateWorkspaceConfiguration_strips_fields_witness :
    (submittedConfig cfg0).lookup "createdBy" = none ∧
    (submittedConfig cfg0).lookup "desc" = cfg0.lookup "desc" :=
  ⟨(updateWorkspaceConfiguration_strips_fields ses0 "t1" cfg0 JsVal.null
      "createdBy").2.1 (by decide),
   (updateWorkspaceConfiguration_strips_fields ses0 "t1" cfg0 JsVal.null
      "desc").2.2 (by decide)⟩

/-! ### Claim C10 -/

/-- C10: the five server-managed fields are deleted from the argument object
itself: after the call the caller's object is exactly the stripped object —
it no longer contains any of the five fields — and it is the very object
submitted in the PUT body. -/
theorem updateWorkspaceConfiguration_mutates_argument (st : Session) (t : String)
    (cfg : List (String × JsVal)) (resp : JsVal) :
    (updateWorkspaceConfiguration st t cfg resp).callerObj = submittedConfig cfg ∧
    (updateWorkspaceConfiguration st t cfg resp).requests.map Request.body =
      [some (ReqBody.confUpdate ((updateWorkspaceConfiguration st t cfg resp).callerObj))] ∧
    ∀ k ∈ managedFields,
      ((updateWorkspaceConfiguration st t cfg resp).callerObj).lookup k = none := by
  refine ⟨rfl, rfl, ?_⟩
  intro k hk
  show (submittedConfig cfg).lookup k = none
  rw [submittedConfig, lookup_foldl_deleteKey]
  simp [hk]

/-- Witness for C10 at a concrete configuration: after the call the
caller's object no longer holds "updatedAt" (which the input carried). -/
theorem updateWorkspaceConfiguration_mutates_argument_witness :
    cfg0.lookup "updatedAt" = some (JsVal.str "2024") ∧
    ((updateWorkspaceConfiguration ses0 "t1" cfg0 JsVal.null).callerObj).lookup
      "updatedAt" = none :=
  ⟨by decide,
   (updateWorkspaceConfiguration_mutates_argument ses0 "t1" cfg0 JsVal.null).2.2
     "updatedAt" (by decide)⟩

/-! ### Claim C1 -/

/-- C1 counterexample: with dry-run enabled, `updateWorkspaceConfiguration`
still issues its PUT — one write request — and resolves with the server
response rather than with the constructed payload. -/
theorem updateWorkspaceConfiguration_ignores_dryrun :
    sesDry.dryrun = true ∧
    (updateWorkspaceConfiguration sesDry "t-1" cfg0 (JsVal.str "server")).requests.map
      Request.isWrite = [true] ∧
    (updateWorkspaceConfiguration sesDry "t-1" cfg0 (JsVal.str "server")).outcome =
      Outcome.resolvedVal (JsVal.str "server") := by decide

/-- C1 (amended): with dry-run enabled, every mutating operation except
`updateWorkspaceConfiguration` resolves with its constructed payload and
issues no write request (`addRemoveProjectUser` resolves with the payload
whenever it reaches the write step, and in every case issues no write;
`createStudy` and `addRemoveStudyPermission` under valid enum arguments),
and the read operations do not consult the flag at all. -/
theorem dryrun_mutating_ops (st : Session) (hdry : st.dryrun = true) :
    (∀ idp adpUrl email role resp,
      addFederatedUser st idp adpUrl email role resp =
        { requests := [],
          outcome := .resolvedNewUser (federatedUserPayload idp adpUrl email role) }) ∧
    (∀ uid fn sn status role users u putResp,
      users.find? (fun x => x.uid == uid) = some u →
      updateUserDetails st uid fn sn status role users putResp =
        { requests := [usersGetReq st],
          outcome := .resolvedUserUpdate (userDetailsPayload u fn sn status role) }) ∧
    (∀ pid uid action users putResp,
      ((addRemoveProjectUser st pid uid action users putResp).requests.all
        (fun r => !r.isWrite)) = true) ∧
    (∀ pid uid action users u putResp,
      users.find? (fun x => x.uid == uid) = some u →
      sortJoin u.projectId ≠ sortJoin (rebuiltProjectIds u.projectId pid action) →
      addRemoveProjectUser st pid uid action users putResp =
        { requests := [usersGetReq st],
          outcome := .resolvedUserUpdate
            { copyUserFields u with
                projectId := jsSortStrings (rebuiltProjectIds u.projectId pid action) } }) ∧
    (∀ proj resp, updateProject st proj resp =
      { requests := [], outcome := .resolvedProjectUpdate (projectUpdatePayload proj) }) ∧
    (∀ pid desc index admins resp, createProject st pid desc index admins resp =
      { requests := [],
        outcome := .resolvedNewProject (createProjectPayload pid desc index admins) }) ∧
    (∀ id name desc pid cat sty upl resp,
      (cat = "Organization" ∨ cat = "My Studies") →
      (sty = "unstructured" ∨ sty = "structured") →
      createStudy st id name desc pid cat sty upl resp =
        .ok { requests := [],
              outcome := .resolvedNewStudy
                (createStudyPayload id name desc pid cat sty upl) }) ∧
    (∀ sid uid2 action lvl resp,
      (lvl = "readonly" ∨ lvl = "admin") →
      (action = "add" ∨ action = "remove") →
      addRemoveStudyPermission st sid uid2 action lvl resp =
        .ok { requests := [],
              outcome := .resolvedPermUpdate (studyPermissionPayload uid2 action lvl) }) ∧
    (∀ b pid resp, getProject { st with dryrun := b } pid resp = getProject st pid resp) ∧
    (∀ b resp, getProjects { st with dryrun := b } resp = getProjects st resp) ∧
    (∀ b sid resp, getStudy { st with dryrun := b } sid resp = getStudy st sid resp) ∧
    (∀ b cat resp, getStudies { st with dryrun := b } cat resp = getStudies st cat resp) ∧
    (∀ b sid resp, getStudyPermissions { st with dryrun := b } sid resp =
      getStudyPermissions st sid resp) ∧
    (∀ b resp, getWorkspaceTypes { st with dryrun := b } resp = getWorkspaceTypes st resp) ∧
    (∀ b t resp, getWorkspaceConfigurations { st with dryrun := b } t resp =
      getWorkspaceConfigurations st t resp) ∧
    (∀ b email idpName users, getUserByEmailAndIdp { st with dryrun := b } email idpName users =
      getUserByEmailAndIdp st email idpName users) := by
  obtain ⟨api, un, pw, tok, dr⟩ := st
  replace hdry : dr = true := hdry
  subst hdry
  refine ⟨fun idp adpUrl email role resp => rfl, ?_, ?_, ?_,
    fun proj resp => rfl, fun pid desc index admins resp => rfl, ?_, ?_,
    fun b pid resp => rfl, fun b resp => rfl, fun b sid resp => rfl,
    fun b cat resp => rfl, fun b sid resp => rfl, fun b resp => rfl,
    fun b t resp => rfl, fun b email idpName users => rfl⟩
  · intro uid fn sn status role users u putResp h
    simp [updateUserDetails, h]
  · intro pid uid action users putResp
    cases hfind : users.find? (fun x => x.uid == uid) with
    | none => simp [addRemoveProjectUser, hfind, usersGetReq, Request.isWrite]
    | some u =>
      by_cases hc : sortJoin u.projectId = sortJoin (rebuiltProjectIds u.projectId pid action)
      · simp [addRemoveProjectUser, hfind, hc, usersGetReq, Request.isWrite]
      · simp [addRemoveProjectUser, hfind, hc, usersGetReq, Request.isWrite]
  · intro pid uid action users u putResp hfind hc
    simp [addRemoveProjectUser, hfind, hc]
  · intro id name desc pid cat sty upl resp h1 h2
    rcases h1 with rfl | rfl <;> rcases h2 with rfl | rfl <;> rfl
  · intro sid uid2 action lvl resp h1 h2
    rcases h1 with rfl | rfl <;> rcases h2 with rfl | rfl <;> rfl

/-- Witness for the amended C1 at concrete inputs: dry-run
`addFederatedUser` returns its payload without traffic, and dry-run
`createStudy` with valid enums does the same. -/
theorem dryrun_mutating_ops_witness :
    addFederatedUser sesDry idp0 "https://pool" "User@Example.COM" "researcher" JsVal.null =
      { requests := [],
        outcome := .resolvedNewUser
          (federatedUserPayload idp0 "https://pool" "User@Example.COM" "researcher") } ∧
    createStudy sesDry "s-1" "Study" "d" "proj-1" "Organization" "structured" true JsVal.null =
      .ok { requests := [],
            outcome := .resolvedNewStudy
              (createStudyPayload "s-1" "Study" "d" "proj-1" "Organization" "structured" true) } :=
  ⟨(dryrun_mutating_ops sesDry rfl).1 idp0 "https://pool" "User@Example.COM"
     "researcher" JsVal.null,
   (dryrun_mutating_ops sesDry rfl).2.2.2.2.2.2.1 "s-1" "Study" "d" "proj-1"
     "Organization" "structured" true JsVal.null (Or.inl rfl) (Or.inr rfl)⟩

/-! ### Claim C3 -/

/-- C3 counterexample: action "add" of project "a" for `user0`, already a
member — the rebuilt list is set-equal to the fetched one and the call
issues no write, but it resolves with the fetched record whose projectId
array has been sorted in place to ["a","b"], not with the record exactly as
fetched (its list order was ["b","a"]). -/
theorem addRemoveProjectUser_reorders_resolved_record :
    user0.projectId = ["b", "a"] ∧
    (addRemoveProjectUser ses0 "a" "u-1" "add" [user0] JsVal.null).requests.map
      Request.isWrite = [false] ∧
    (addRemoveProjectUser ses0 "a" "u-1" "add" [user0] JsVal.null).outcome =
      Outcome.resolvedUser { user0 with projectId := ["a", "b"] } ∧
    ({ user0 with projectId := ["a", "b"] } : User) ≠ user0 := by decide

/-- C3 (amended): whenever the sorted-and-joined before/after project lists
coincide (the code's actual guard; set-equality implies it only in the
absence of duplicate entries), the call issues only the GET — no write —
and resolves with the fetched user record whose projectId array has been
sorted in place: the same elements as fetched, in sorted order. -/
theorem addRemoveProjectUser_shortcircuit (st : Session) (pid uid action : String)
    (users : List User) (u : User) (putResp : JsVal)
    (hu : users.find? (fun x => x.uid == uid) = some u)
    (heq : sortJoin u.projectId = sortJoin (rebuiltProjectIds u.projectId pid action)) :
    (addRemoveProjectUser st pid uid action users putResp).requests = [usersGetReq st] ∧
    (usersGetReq st).isWrite = false ∧
    (addRemoveProjectUser st pid uid action users putResp).outcome =
      Outcome.resolvedUser { u with projectId := jsSortStrings u.projectId } ∧
    (jsSortStrings u.projectId).Perm u.projectId := by
  refine ⟨?_, rfl, ?_, jsSortStrings_perm u.projectId⟩ <;>
    simp [addRemoveProjectUser, hu, heq]

/-- Witness for the amended C3 at `user0`. -/
theorem addRemoveProjectUser_shortcircuit_witness :
    (addRemoveProjectUser ses0 "a" "u-1" "add" [user0] JsVal.null).requests =
      [usersGetReq ses0] ∧
    (addRemoveProjectUser ses0 "a" "u-1" "add" [user0] JsVal.null).outcome =
      Outcome.resolvedUser { user0 with projectId := jsSortStrings user0.projectId } := by
  have h := addRemoveProjectUser_shortcircuit ses0 "a" "u-1" "add" [user0] user0
    JsVal.null (by decide) (by decide)
  exact ⟨h.1, h.2.2.1⟩

/-! ### Claim C4 -/

/-- C4 counterexample: with no bearer token held, `getProject` does not fail
with an authentication error — it issues its GET (with no Authorization
value) and resolves with the server response. -/
theorem getProject_without_token_resolves :
    sesNoTok.token = none ∧
    (getProject sesNoTok "p1" (JsVal.str "proj")).outcome =
      Outcome.resolvedVal (JsVal.str "proj") ∧
    (getProject sesNoTok "p1" (JsVal.str "proj")).requests =
      [{ url := "https://swb.example/api/projects/p1", method := "GET",
         authToken := none, body := none }] := by decide

/-- C4 (amended): the client performs no bearer-token check in any
operation.  With no token held, every operation other than `login` and
`getIdp` still issues all its requests with no Authorization value
attached, and its settlement is identical to what the same call would
produce with any token held — no authentication error ever arises
client-side. -/
theorem no_client_side_token_check (st : Session) (h : st.token = none) :
    (∀ idp adpUrl email role resp,
      ((addFederatedUser st idp adpUrl email role resp).requests.all
        (fun r => r.authToken == none)) = true ∧
      ∀ tok2, (addFederatedUser { st with token := tok2 } idp adpUrl email role resp).outcome =
        (addFederatedUser st idp adpUrl email role resp).outcome) ∧
    (∀ email idpName users,
      ((getUserByEmailAndIdp st email idpName users).requests.all
        (fun r => r.authToken == none)) = true ∧
      ∀ tok2, (getUserByEmailAndIdp { st with token := tok2 } email idpName users).outcome =
        (getUserByEmailAndIdp st email idpName users).outcome) ∧
    (∀ uid fn sn status role users putResp,
      ((updateUserDetails st uid fn sn status role users putResp).requests.all
        (fun r => r.authToken == none)) = true ∧
      ∀ tok2,
        (updateUserDetails { st with token := tok2 } uid fn sn status role users putResp).outcome =
        (updateUserDetails st uid fn sn status role users putResp).outcome) ∧
    (∀ pid uid action users putResp,
      ((addRemoveProjectUser st pid uid action users putResp).requests.all
        (fun r => r.authToken == none)) = true ∧
      ∀ tok2,
        (addRemoveProjectUser { st with token := tok2 } pid uid action users putResp).outcome =
        (addRemoveProjectUser st pid uid action users putResp).outcome) ∧
    (∀ pid resp,
      ((getProject st pid resp).requests.all (fun r => r.authToken == none)) = true ∧
      ∀ tok2, (getProject { st with token := tok2 } pid resp).outcome =
        (getProject st pid resp).outcome) ∧
    (∀ proj resp,
      ((updateProject st proj resp).requests.all (fun r => r.authToken == none)) = true ∧
      ∀ tok2, (updateProject { st with token := tok2 } proj resp).outcome =
        (updateProject st proj resp).outcome) ∧
    (∀ resp,
      ((getProjects st resp).requests.all (fun r => r.authToken == none)) = true ∧
      ∀ tok2, (getProjects { st with token := tok2 } resp).outcome =
        (getProjects st resp).outcome) ∧
    (∀ pid desc index admins resp,
      ((createProject st pid desc index admins resp).requests.all
        (fun r => r.authToken == none)) = true ∧
      ∀ tok2, (createProject { st with token := tok2 } pid desc index admins resp).outcome =
        (createProject st pid desc index admins resp).outcome) ∧
    (∀ cat resp,
      ((issuedRequests (getStudies st cat resp)).all (fun r => r.authToken == none)) = true ∧
      ∀ tok2, Except.map OpResult.outcome (getStudies { st with token := tok2 } cat resp) =
        Except.map OpResult.outcome (getStudies st cat resp)) ∧
    (∀ sid resp,
      ((getStudy st sid resp).requests.all (fun r => r.authToken == none)) = true ∧
      ∀ tok2, (getStudy { st with token := tok2 } sid resp).outcome =
        (getStudy st sid resp).outcome) ∧
    (∀ id name desc pid cat sty upl resp,
      ((issuedRequests (createStudy st id name desc pid cat sty upl resp)).all
        (fun r => r.authToken == none)) = true ∧
      ∀ tok2, Except.map OpResult.outcome
          (createStudy { st with token := tok2 } id name desc pid cat sty upl resp) =
        Except.map OpResult.outcome (createStudy st id name desc pid cat sty upl resp)) ∧
    (∀ sid resp,
      ((getStudyPermissions st sid resp).requests.all (fun r => r.authToken == none)) = true ∧
      ∀ tok2, (getStudyPermissions { st with token := tok2 } sid resp).outcome =
        (getStudyPermissions st sid resp).outcome) ∧
    (∀ sid uid2 action lvl resp,
      ((issuedRequests (addRemoveStudyPermission st sid uid2 action lvl resp)).all
        (fun r => r.authToken == none)) = true ∧
      ∀ tok2, Except.map OpResult.outcome
          (addRemoveStudyPermission { st with token := tok2 } sid uid2 action lvl resp) =
        Except.map OpResult.outcome (addRemoveStudyPermission st sid uid2 action lvl resp)) ∧
    (∀ resp,
      ((getWorkspaceTypes st resp).requests.all (fun r => r.authToken == none)) = true ∧
      ∀ tok2, (getWorkspaceTypes { st with token := tok2 } resp).outcome =
        (getWorkspaceTypes st resp).outcome) ∧
    (∀ t resp,
      ((getWorkspaceConfigurations st t resp).requests.all
        (fun r => r.authToken == none)) = true ∧
      ∀ tok2, (getWorkspaceConfigurations { st with token := tok2 } t resp).outcome =
        (getWorkspaceConfigurations st t resp).outcome) ∧
    (∀ t cfg resp,
      ((updateWorkspaceConfiguration st t cfg resp).requests.all
        (fun r => r.authToken == none)) = true ∧
      ∀ tok2, (updateWorkspaceConfiguration { st with token := tok2 } t cfg resp).outcome =
        (updateWorkspaceConfiguration st t cfg resp).outcome) := by
  obtain ⟨api, un, pw, tok, dr⟩ := st
  replace h : tok = none := h
  subst h
  refine ⟨?_, ?_, ?_, ?_,
    fun pid resp => ⟨rfl, fun tok2 => rfl⟩,
    ?_,
    fun resp => ⟨rfl, fun tok2 => rfl⟩,
    ?_,
    ?_,
    fun sid resp => ⟨rfl, fun tok2 => rfl⟩,
    ?_,
    fun sid resp => ⟨rfl, fun tok2 => rfl⟩,
    ?_,
    fun resp => ⟨rfl, fun tok2 => rfl⟩,
    fun t resp => ⟨rfl, fun tok2 => rfl⟩,
    fun t cfg resp => ⟨rfl, fun tok2 => rfl⟩⟩
  · intro idp adpUrl email role resp
    exact ⟨by cases dr <;> rfl, fun tok2 => by cases dr <;> rfl⟩
  · intro email idpName users
    constructor
    · cases users with
      | none => rfl
      | some us =>
        cases hfind : us.find?
            (fun u => u.email == email && u.identityProviderName == idpName) <;>
          simp [getUserByEmailAndIdp, hfind, usersGetReq]
    · intro tok2
      cases users with
      | none => rfl
      | some us =>
        cases hfind : us.find?
            (fun u => u.email == email && u.identityProviderName == idpName) <;>
          simp [getUserByEmailAndIdp, hfind]
  · intro uid fn sn status role users putResp
    constructor
    · cases hfind : users.find? (fun u => u.uid == uid) <;> cases dr <;>
        simp [updateUserDetails, hfind, usersGetReq, userPutReq]
    · intro tok2
      cases hfind : users.find? (fun u => u.uid == uid) <;> cases dr <;>
        simp [updateUserDetails, hfind]
  · intro pid uid action users putResp
    constructor
    · cases hfind : users.find? (fun x => x.uid == uid) with
      | none => simp [addRemoveProjectUser, hfind, usersGetReq]
      | some u =>
        by_cases hc : sortJoin u.projectId =
            sortJoin (rebuiltProjectIds u.projectId pid action) <;>
          cases dr <;>
          simp [addRemoveProjectUser, hfind, hc, usersGetReq, userPutReq]
    · intro tok2
      cases hfind : users.find? (fun x => x.uid == uid) with
      | none => simp [addRemoveProjectUser, hfind]
      | some u =>
        by_cases hc : sortJoin u.projectId =
            sortJoin (rebuiltProjectIds u.projectId pid action) <;>
          cases dr <;>
          simp [addRemoveProjectUser, hfind, hc]
  · intro proj resp
    exact ⟨by cases dr <;> rfl, fun tok2 => by cases dr <;> rfl⟩
  · intro pid desc index admins resp
    exact ⟨by cases dr <;> rfl, fun tok2 => by cases dr <;> rfl⟩
  · intro cat resp
    have hsplit : (cat = "Organization" ∨ cat = "My Studies") ∨
        (¬cat = "Organization" ∧ ¬cat = "My Studies") := by tauto
    constructor
    · rcases hsplit with hcat | hcat
      · rcases hcat with rfl | rfl <;> rfl
      · simp [getStudies, hcat.1, hcat.2, issuedRequests]
    · intro tok2
      rcases hsplit with hcat | hcat
      · rcases hcat with rfl | rfl <;> rfl
      · simp [getStudies, hcat.1, hcat.2, Except.map]
  · intro id name desc pid cat sty upl resp
    have hsplitc : (cat = "Organization" ∨ cat = "My Studies") ∨
        (¬cat = "Organization" ∧ ¬cat = "My Studies") := by tauto
    have hsplits : (sty = "unstructured" ∨ sty = "structured") ∨
        (¬sty = "unstructured" ∧ ¬sty = "structured") := by tauto
    constructor
    · rcases hsplitc with hcat | hcat
      · rcases hsplits with hsty | hsty
        · rcases hcat with rfl | rfl <;> rcases hsty with rfl | rfl <;>
            cases dr <;> rfl
        · rcases hcat with rfl | rfl <;>
            simp [createStudy, hsty.1, hsty.2, issuedRequests]
      · simp [createStudy, hcat.1, hcat.2, issuedRequests]
    · intro tok2
      rcases hsplitc with hcat | hcat
      · rcases hsplits with hsty | hsty
        · rcases hcat with rfl | rfl <;> rcases hsty with rfl | rfl <;>
            cases dr <;> rfl
        · rcases hcat with rfl | rfl <;>
            simp [createStudy, hsty.1, hsty.2, Except.map]
      · simp [createStudy, hcat.1, hcat.2, Except.map]
  · intro sid uid2 action lvl resp
    have hsplitl : (lvl = "readonly" ∨ lvl = "admin") ∨
        (¬lvl = "readonly" ∧ ¬lvl = "admin") := by tauto
    have hsplita : (action = "add" ∨ action = "remove") ∨
        (¬action = "add" ∧ ¬action = "remove") := by tauto
    constructor
    · rcases hsplitl with hlvl | hlvl
      · rcases hsplita with hact | hact
        · rcases hlvl with rfl | rfl <;> rcases hact with rfl | rfl <;>
            cases dr <;> rfl
        · rcases hlvl with rfl | rfl <;>
            simp [addRemoveStudyPermission, hact.1, hact.2, issuedRequests]
      · simp [addRemoveStudyPermission, hlvl.1, hlvl.2, issuedRequests]
    · intro tok2
      rcases hsplitl with hlvl | hlvl
      · rcases hsplita with hact | hact
        · rcases hlvl with rfl | rfl <;> rcases hact with rfl | rfl <;>
            cases dr <;> rfl
        · rcases hlvl with rfl | rfl <;>
            simp [addRemoveStudyPermission, hact.1, hact.2, Except.map]
      · simp [addRemoveStudyPermission, hlvl.1, hlvl.2, Except.map]

/-- Witness for the amended C4 at concrete inputs: a tokenless `getProject`
carries no Authorization value, a tokenless `addRemoveProjectUser` settles
exactly as the same call with a token held, and a tokenless `getStudies`
issues its GET without an Authorization value. -/
theorem no_client_side_token_check_witness :
    ((getProject sesNoTok "p1" JsVal.null).requests.all
      (fun r => r.authToken == none)) = true ∧
    (addRemoveProjectUser { sesNoTok with token := some "tok" } "a" "u-1" "add"
        [user0] JsVal.null).outcome =
      (addRemoveProjectUser sesNoTok "a" "u-1" "add" [user0] JsVal.null).outcome ∧
    ((issuedRequests (getStudies sesNoTok "Organization" JsVal.null)).all
      (fun r => r.authToken == none)) = true :=
  ⟨((no_client_side_token_check sesNoTok rfl).2.2.2.2.1 "p1" JsVal.null).1,
   ((no_client_side_token_check sesNoTok rfl).2.2.2.1 "a" "u-1" "add" [user0]
      JsVal.null).2 (some "tok"),
   ((no_client_side_token_check sesNoTok rfl).2.2.2.2.2.2.2.2.1 "Organization"
      JsVal.null).1⟩

/-! ### Claim C7 -/

/-- C7 counterexample: for a stored user whose projectId list is
["p","p"] — already a member of "p" — the first redundant add does not
short-circuit: it issues a PUT with the deduplicated list, so after the two
calls the user's stored projectId list is ["p"], not the original
["p","p"] — the redundant add changed it. -/
theorem redundant_add_on_duplicate_list_changes_projectId :
    userDup.projectId = ["p", "p"] ∧
    ((addRemoveProjectUserRun ses0 "p" "u-2" "add" [userDup] JsVal.null).2.requests.map
      Request.method) = ["GET", "PUT"] ∧
    ((addRemoveProjectUserRun ses0 "p" "u-2" "add"
        (addRemoveProjectUserRun ses0 "p" "u-2" "add" [userDup] JsVal.null).1
        JsVal.null).1.map (fun u => u.projectId)) = [["p"]] := by decide

/-- C7 (amended): for a user whose projectId list holds the target project
exactly once, both redundant adds short-circuit: neither call issues a
write, the stored user collection is unchanged after both calls, and the
second call resolves with the (sorted-in-place) fetched record. -/
theorem redundant_add_idempotent (st : Session) (pid uid : String)
    (server : List User) (u : User) (putResp : JsVal)
    (hu : server.find? (fun x => x.uid == uid) = some u)
    (hcount : u.projectId.count pid = 1) :
    (addRemoveProjectUserRun st pid uid "add" server putResp).1 = server ∧
    (addRemoveProjectUserRun st pid uid "add"
      (addRemoveProjectUserRun st pid uid "add" server putResp).1 putResp).1 = server ∧
    ((addRemoveProjectUserRun st pid uid "add" server putResp).2.requests.all
      (fun r => !r.isWrite)) = true ∧
    ((addRemoveProjectUserRun st pid uid "add"
        (addRemoveProjectUserRun st pid uid "add" server putResp).1 putResp).2.requests.all
      (fun r => !r.isWrite)) = true ∧
    (addRemoveProjectUserRun st pid uid "add"
        (addRemoveProjectUserRun st pid uid "add" server putResp).1 putResp).2.outcome =
      Outcome.resolvedUser { u with projectId := jsSortStrings u.projectId } := by
  have hsort : jsSortStrings (rebuiltProjectIds u.projectId pid "add") =
      jsSortStrings u.projectId :=
    jsSortStrings_eq_of_perm (rebuilt_perm_of_count_one u.projectId pid hcount)
  have heq : sortJoin u.projectId = sortJoin (rebuiltProjectIds u.projectId pid "add") := by
    unfold sortJoin
    rw [hsort]
  have hop : addRemoveProjectUser st pid uid "add" server putResp =
      { requests := [usersGetReq st],
        outcome := Outcome.resolvedUser { u with projectId := jsSortStrings u.projectId } } := by
    simp [addRemoveProjectUser, hu, heq]
  have hrun : addRemoveProjectUserRun st pid uid "add" server putResp =
      (server,
       { requests := [usersGetReq st],
         outcome := Outcome.resolvedUser { u with projectId := jsSortStrings u.projectId } }) := by
    simp [addRemoveProjectUserRun, hop, userPutOf, usersGetReq]
  have hfst : (addRemoveProjectUserRun st pid uid "add" server putResp).1 = server := by
    rw [hrun]
  rw [hfst, hrun]
  exact ⟨rfl, rfl, rfl, rfl, rfl⟩

/-- Witness for the amended C7 at a concrete single-membership user. -/
theorem redundant_add_idempotent_witness :
    (addRemoveProjectUserRun ses0 "p" "u-3" "add" [userP] JsVal.null).1 = [userP] ∧
    (addRemoveProjectUserRun ses0 "p" "u-3" "add"
      (addRemoveProjectUserRun ses0 "p" "u-3" "add" [userP] JsVal.null).1
      JsVal.null).1 = [userP] := by
  have h := redundant_add_idempotent ses0 "p" "u-3" [userP] userP JsVal.null
    (by decide) (by decide)
  exact ⟨h.1, h.2.1⟩
